import Mathlib

/-!
Verification of the prorad edge-server repository: a Node/Express process
that serves health-check routes, supervises a FastAPI backend child
process through an ordered list of candidate start commands, tracks the
backend's readiness through a stdout marker, and reverse-proxies `/api`
traffic, answering structured 503/500 errors on transport failure.

The embedding below translates the JavaScript sources shallowly:
HTTP responses become records, JSON bodies become association lists,
the Express route table becomes a dispatch function, event handlers
become step functions on explicit state, and the recursive launcher
`tryNextCommand` becomes a recursion over the candidate index returning
the list of attempted indices.  Wall-clock delays (`setTimeout`,
`RETRY_DELAY`) are not modelled; only the control flow they schedule is.
-/

/-- A JSON object is modelled as an association list from field names to
string values (every field in the bodies produced by this repository is a
string). -/
def jsonGet (o : List (String × String)) (key : String) : Option String :=
  (o.find? (fun p => p.1 == key)).map (fun p => p.2)

/-- An HTTP response as produced by the handlers of this repository:
a numeric status plus a JSON object body. -/
structure HttpResponse where
  statusCode : Nat
  body : List (String × String)
  deriving Repr, DecidableEq

/-- Decides whether a character list starts with the pattern.  Used to
model the JavaScript `String.prototype.startsWith` and Express prefix
mounting on a kernel-friendly representation. -/
def charsStartsWith : List Char → List Char → Bool
  | [], _ => true
  | _ :: _, [] => false
  | a :: as, b :: bs => a == b && charsStartsWith as bs

/-- Decides whether the pattern occurs as a contiguous substring of the
character list.  Models the JavaScript `String.prototype.includes`. -/
def charsContains (pat : List Char) : List Char → Bool
  | [] => pat.isEmpty
  | c :: rest => charsStartsWith pat (c :: rest) || charsContains pat rest

/-- JavaScript `s.includes(pat)`. -/
def strIncludes (s pat : String) : Bool :=
  charsContains pat.data s.data

/-- JavaScript `s.startsWith(pat)` / Express mount-prefix matching. -/
def strStartsWith (s pat : String) : Bool :=
  charsStartsWith pat.data s.data

namespace DirectStart

/-!
Embedding of the second (readiness-gated) program in
`src/direct_start.js`: hardcoded route table, the `fastApiRunning`
flag, the proxy error handler, and the command launcher.
-/

/-- The readiness marker recognised in the backend's stdout
(`direct_start.js` line 327, first disjunct). -/
def startupMarker1 : String := "Application startup complete"

/-- The readiness marker recognised in the backend's stdout
(`direct_start.js` line 327, second disjunct). -/
def startupMarker2 : String := "Uvicorn running"

/-- The stdout-chunk test of the launcher's stdout handler:
`output.includes('Application startup complete') || output.includes('Uvicorn running')`. -/
def isReadinessMarker (output : String) : Bool :=
  strIncludes output startupMarker1 || strIncludes output startupMarker2

/-- Initial value of the `fastApiRunning` variable
(`let fastApiRunning = false`, line 147). -/
def initialFastApiRunning : Bool := false

/-- Events delivered to the handlers installed on the spawned backend
child process in `tryNextCommand`.  Each attempt delivers its events
sequentially on the single-threaded event loop. -/
inductive BackendEvent where
  | stdout (data : String)
  | stderrData (data : String)
  | spawnFailed (message : String)
  | close (code : Int)
  deriving Repr, DecidableEq

/-- The effect of one backend-process event on the `fastApiRunning`
flag, read off the handlers at lines 322-351: the stdout handler sets
the flag to true exactly when a readiness marker is seen (otherwise it
leaves the flag alone); the close handler unconditionally resets it to
false; the stderr and spawn-error handlers do not touch it. -/
def stepFlag (flag : Bool) : BackendEvent → Bool
  | BackendEvent.stdout data => if isReadinessMarker data then true else flag
  | BackendEvent.stderrData _ => flag
  | BackendEvent.spawnFailed _ => flag
  | BackendEvent.close _ => false

/-- The proxy error handler (`apiProxy.onError`, lines 160-176): 503
with an "initializing" body while `fastApiRunning` is false, otherwise
500 with an "error" body carrying the underlying error message. -/
def apiProxyOnError (fastApiRunning : Bool) (errMessage : String) : HttpResponse :=
  if !fastApiRunning then
    { statusCode := 503,
      body := [("error", "Service Unavailable"),
               ("message", "The API is starting up, please try again in a moment"),
               ("status", "initializing")] }
  else
    { statusCode := 500,
      body := [("error", "Proxy error"),
               ("message", errMessage),
               ("status", "error")] }

/-- Response of the three health routes (lines 119-133); `now` is the
ISO timestamp produced by `new Date().toISOString()`. -/
def healthResponse (now : String) : HttpResponse :=
  { statusCode := 200, body := [("status", "ok"), ("timestamp", now)] }

/-- Response of the root route (lines 136-144). -/
def rootResponse : HttpResponse :=
  { statusCode := 200,
    body := [("message", "Radiology Transcription API Gateway"),
             ("api", "/api"),
             ("health", "/_health"),
             ("status", "online"),
             ("version", "1.0.0")] }

/-- Route path of the primary health check. -/
def healthPath1 : String := "/_health"

/-- Route path of the first alternative health check. -/
def healthPath2 : String := "/healthz"

/-- Route path of the second alternative health check. -/
def healthPath3 : String := "/health"

/-- Route path of the root informational route. -/
def rootPath : String := "/"

/-- Mount prefix of the API proxy (`app.use('/api', apiProxy)`). -/
def apiRoute : String := "/api"

/-- The HTTP method string matched by the `app.get` routes. -/
def GETmethod : String := "GET"

/-- The mutable server-side state visible to request handlers: the
`fastApiRunning` flag plus the launcher's current candidate index
(the latter is never consulted by any route, which is what lets the
health routes answer identically in every backend state). -/
structure ServerState where
  fastApiRunning : Bool
  launcherIndex : Nat
  deriving Repr, DecidableEq

/-- Outcome of the proxy's attempt to forward one request to the
backend: either the backend answered, or the transport failed and the
error handler runs with the given error message. -/
inductive ProxyOutcome where
  | backendResponse (resp : HttpResponse)
  | transportError (errMessage : String)
  deriving Repr, DecidableEq

/-- The Express route table of `direct_start.js` (registration order:
the three health routes, the root route, then the `/api` proxy mount),
as a dispatch on method and path.  Requests matching no route fall
through to Express's default 404, modelled as `none`. -/
def handleRequest (st : ServerState) (method path now : String)
    (proxy : ProxyOutcome) : Option HttpResponse :=
  if method = GETmethod ∧ path = healthPath1 then some (healthResponse now)
  else if method = GETmethod ∧ path = healthPath2 then some (healthResponse now)
  else if method = GETmethod ∧ path = healthPath3 then some (healthResponse now)
  else if method = GETmethod ∧ path = rootPath then some rootResponse
  else if strStartsWith path apiRoute then
    match proxy with
    | ProxyOutcome.backendResponse r => some r
    | ProxyOutcome.transportError errMessage =>
        some (apiProxyOnError st.fastApiRunning errMessage)
  else none

/-- The shared uvicorn argument vector of the candidate commands
(`startFastApi`, lines 275-295). -/
def uvicornArgs : List String := ["main:app", "--host", "0.0.0.0", "--port", "8000"]

/-- A command candidate: executable plus argument list, as pushed onto
the `commands` array in `startFastApi`. -/
structure Command where
  cmd : String
  args : List String
  deriving Repr, DecidableEq

/-- The two virtual-environment-specific candidates pushed first when
`venvExists` holds (lines 282-287). -/
def venvCommands : List Command :=
  [⟨"/app/venv/bin/uvicorn", uvicornArgs⟩,
   ⟨"/app/venv/bin/python", ["-m", "uvicorn"] ++ uvicornArgs⟩]

/-- The inline Python fallback passed to `python3 -c` as the last
candidate (line 294). -/
def pythonInlineCode : String :=
  "import sys; print(sys.path); import uvicorn; uvicorn.run(\"main:app\", host=\"0.0.0.0\", port=8000)"

/-- The four generic fallback candidates always pushed (lines 290-295). -/
def fallbackCommands : List Command :=
  [⟨"uvicorn", uvicornArgs⟩,
   ⟨"python3", ["-m", "uvicorn"] ++ uvicornArgs⟩,
   ⟨"/usr/local/bin/uvicorn", uvicornArgs⟩,
   ⟨"python3", ["-c", pythonInlineCode]⟩]

/-- The ordered candidate list built by `startFastApi(venvExists)`
(lines 275-299), transcribed push by push: the two venv-specific
candidates first when the virtual environment was detected, then the
four generic fallbacks. -/
def startFastApiCommands (venvExists : Bool) : List Command :=
  (if venvExists then
    [⟨"/app/venv/bin/uvicorn", ["main:app", "--host", "0.0.0.0", "--port", "8000"]⟩,
     ⟨"/app/venv/bin/python",
       ["-m", "uvicorn", "main:app", "--host", "0.0.0.0", "--port", "8000"]⟩]
   else []) ++
  [⟨"uvicorn", ["main:app", "--host", "0.0.0.0", "--port", "8000"]⟩,
   ⟨"python3", ["-m", "uvicorn", "main:app", "--host", "0.0.0.0", "--port", "8000"]⟩,
   ⟨"/usr/local/bin/uvicorn", ["main:app", "--host", "0.0.0.0", "--port", "8000"]⟩,
   ⟨"python3",
     ["-c",
      "import sys; print(sys.path); import uvicorn; uvicorn.run(\"main:app\", host=\"0.0.0.0\", port=8000)"]⟩]

/-- Substring tested by `cmd.includes('/app/venv/bin/')` in
`tryNextCommand` (line 315). -/
def venvBinMarker : String := "/app/venv/bin/"

/-- Prefix prepended to PATH for venv commands (line 316). -/
def venvBinColonStr : String := "/app/venv/bin:"

/-- Value assigned to VIRTUAL_ENV for venv commands (line 317). -/
def venvDir : String := "/app/venv"

/-- The environment passed to the spawned child: the PATH variable (the
JavaScript `env.PATH || ''` makes an absent PATH behave as the empty
string, so PATH is total here) and the optional VIRTUAL_ENV variable. -/
structure ChildEnv where
  PATH : String
  VIRTUAL_ENV : Option String
  deriving Repr, DecidableEq

/-- The child-environment setup of `tryNextCommand` (lines 311-318):
commands whose executable path contains `/app/venv/bin/` get the venv
bin directory prepended to PATH and VIRTUAL_ENV set; all others inherit
the parent environment unchanged. -/
def commandEnv (cmd : String) (parent : ChildEnv) : ChildEnv :=
  if strIncludes cmd venvBinMarker then
    { PATH := venvBinColonStr ++ parent.PATH, VIRTUAL_ENV := some venvDir }
  else parent

/-- The terminal outcome of one spawn attempt, as observed by the
handlers in `tryNextCommand`: the spawn-level `error` event fired (the
error message is irrelevant to control flow and dropped), or the
process exited via the `close` event with the given code, or the
process kept running (the successful case: neither event fires).  Each
attempt is modelled as yielding exactly one such terminal outcome. -/
inductive AttemptOutcome where
  | spawnFailure
  | exitsWith (code : Int)
  | keepsRunning
  deriving Repr, DecidableEq

/-- The candidate-advancement recursion of `tryNextCommand`
(lines 302-352), returning the list of candidate indices attempted from
`index` on, given each candidate's terminal outcome: past the end of
the list it stops (the exhaustion branch at lines 303-306); a
spawn-level error always advances (line 340); a close with nonzero code
advances only while not at the last candidate (lines 348-350); any
other close, and a candidate that keeps running, end the recursion. -/
def tryNextCommand (outcomes : List AttemptOutcome) (index : Nat) : List Nat :=
  if h : index < outcomes.length then
    match outcomes[index] with
    | AttemptOutcome.spawnFailure => index :: tryNextCommand outcomes (index + 1)
    | AttemptOutcome.exitsWith code =>
        if code ≠ 0 ∧ index < outcomes.length - 1 then
          index :: tryNextCommand outcomes (index + 1)
        else [index]
    | AttemptOutcome.keepsRunning => [index]
  else []
termination_by outcomes.length - index

/-- An outcome counts as a failed candidate: a spawn-level error or a
nonzero exit code. -/
def isFailedOutcome : AttemptOutcome → Bool
  | AttemptOutcome.spawnFailure => true
  | AttemptOutcome.exitsWith code => code != 0
  | AttemptOutcome.keepsRunning => false

end DirectStart

namespace Healthcheck

/-!
Embedding of `src/healthcheck.js`: the external health prober with its
bounded retry loop.
-/

/-- The probe target port, hardcoded (`healthcheck.js` line 14). -/
def PORT : Nat := 3000

/-- Maximum number of probe attempts (line 17). -/
def MAX_RETRIES : Nat := 5

/-- Milliseconds waited between attempts (line 18).  The wall-clock
delay is not modelled; only the retry it schedules is. -/
def RETRY_DELAY : Nat := 5000

/-- Outcome of one probe attempt, as observed by the handlers in
`makeRequest`: an HTTP response with some status code, a connection
error (message irrelevant to control flow), or the per-attempt
timeout. -/
inductive ProbeOutcome where
  | response (statusCode : Nat)
  | connFailure (message : String)
  | timedOut
  deriving Repr, DecidableEq

mutual

/-- The probe loop of `healthcheck.js` (`makeRequest`, lines 21-62):
given the outcome of each attempt number, an HTTP 200 exits with code 0
at once; any other status, a connection error, or a timeout defers to
`retryOrFail`.  The returned value is the process exit code. -/
def makeRequest (attempts : Nat → ProbeOutcome) (retry : Nat) : Nat :=
  match attempts retry with
  | ProbeOutcome.response statusCode =>
      if statusCode = 200 then 0 else retryOrFail attempts retry
  | ProbeOutcome.connFailure _ => retryOrFail attempts retry
  | ProbeOutcome.timedOut => retryOrFail attempts retry
termination_by 2 * (MAX_RETRIES - retry) + 1
decreasing_by omega

/-- The retry decision (`retryOrFail`, lines 65-73): while attempts
remain, schedule the next attempt after the delay; otherwise exit with
code 1. -/
def retryOrFail (attempts : Nat → ProbeOutcome) (currentRetry : Nat) : Nat :=
  if currentRetry < MAX_RETRIES - 1 then makeRequest attempts (currentRetry + 1)
  else 1
termination_by 2 * (MAX_RETRIES - currentRetry)
decreasing_by omega

end

/-- An attempt outcome counts as a failed probe: any non-200 status,
a connection error, or a timeout. -/
def isProbeFailure : ProbeOutcome → Bool
  | ProbeOutcome.response statusCode => statusCode != 200
  | ProbeOutcome.connFailure _ => true
  | ProbeOutcome.timedOut => true

end Healthcheck

namespace ServerJs

/-!
Embedding of the bind-port computation of `src/server.js`.
-/

/-- The edge server's bind port (`server.js` line 4):
`process.env.PORT || 3000`.  An environment value is modelled by its
numeric value; an unset (or empty, hence falsy) PORT variable is
`none`. -/
def PORT (envPORT : Option Nat) : Nat :=
  match envPORT with
  | some p => p
  | none => 3000

end ServerJs

namespace VariantA

/-!
Embedding of the abandoned variant in `src/unnamed/part_000`: same
route table and proxy error handler as `direct_start.js`, but its only
assignment of `true` to `fastApiRunning` sits in a listener for a
custom 'log' event on `process` (lines 223-229) — an event Node.js
never emits.
-/

/-- Initial value of the variant's `fastApiRunning` (part_000
line 42). -/
def variantInitialFlag : Bool := false

/-- Events delivered to the variant's handlers that can touch
`fastApiRunning`: the custom 'log' event on `process` (lines 223-229),
the Python child's close event (lines 209-212), and its spawn-error
event (lines 205-207).  The spawned child uses `stdio: 'inherit'`, so
no stdout handler exists in this variant. -/
inductive VariantEvent where
  | processLog (data : String)
  | pythonClose (code : Int)
  | pythonSpawnFailure (message : String)
  deriving Repr, DecidableEq

/-- Whether the event is the custom 'log' event — the one event whose
handler can set the flag, and which the Node.js runtime never emits on
`process`. -/
def isLogEvent : VariantEvent → Bool
  | VariantEvent.processLog _ => true
  | VariantEvent.pythonClose _ => false
  | VariantEvent.pythonSpawnFailure _ => false

/-- Effect of one event on the variant's `fastApiRunning`: the 'log'
listener sets it true exactly on a readiness marker (the same substring
test as in `direct_start.js`); the close handler resets it to false;
the spawn-error handler leaves it unchanged. -/
def variantStep (flag : Bool) : VariantEvent → Bool
  | VariantEvent.processLog data =>
      if DirectStart.isReadinessMarker data then true else flag
  | VariantEvent.pythonClose _ => false
  | VariantEvent.pythonSpawnFailure _ => flag

/-- The variant's proxy error handler (part_000 lines 55-71), textually
identical to the one in `direct_start.js`. -/
def variantOnError (fastApiRunning : Bool) (errMessage : String) : HttpResponse :=
  if !fastApiRunning then
    { statusCode := 503,
      body := [("error", "Service Unavailable"),
               ("message", "The API is starting up, please try again in a moment"),
               ("status", "initializing")] }
  else
    { statusCode := 500,
      body := [("error", "Proxy error"),
               ("message", errMessage),
               ("status", "error")] }

end VariantA

/-- C1: the proxy error handler answers 503 with status "initializing"
while the readiness flag is false, and 500 with status "error" carrying
the underlying error message while it is true
(`direct_start.js` lines 160-176). -/
theorem proxy_error_handler_branches (err : String) :
    (DirectStart.apiProxyOnError false err).statusCode = 503 ∧
    jsonGet (DirectStart.apiProxyOnError false err).body ("status")
      = some ("initializing") ∧
    (DirectStart.apiProxyOnError true err).statusCode = 500 ∧
    jsonGet (DirectStart.apiProxyOnError true err).body ("status")
      = some ("error") ∧
    jsonGet (DirectStart.apiProxyOnError true err).body ("message")
      = some err :=
  ⟨rfl, rfl, rfl, rfl, rfl⟩

/-- C4: the readiness flag starts false, is set to true by any stdout
chunk containing a readiness marker (from any prior value), is reset to
false by process exit, and repeated marker matches leave it true, so
marker handling is idempotent and never a toggle. -/
theorem readiness_flag_lifecycle (flag : Bool) (data : String) (code : Int)
    (h : DirectStart.isReadinessMarker data = true) :
    DirectStart.initialFastApiRunning = false ∧
    DirectStart.stepFlag flag (DirectStart.BackendEvent.stdout data) = true ∧
    DirectStart.stepFlag
      (DirectStart.stepFlag flag (DirectStart.BackendEvent.stdout data))
      (DirectStart.BackendEvent.stdout data) = true ∧
    DirectStart.stepFlag flag (DirectStart.BackendEvent.close code) = false := by
  refine ⟨rfl, ?_, ?_, rfl⟩ <;> simp [DirectStart.stepFlag, h]

/-- Closed instance of C4 at the first readiness marker itself, with
the flag initially false and exit code 0. -/
theorem readiness_flag_lifecycle_witness :
    DirectStart.initialFastApiRunning = false ∧
    DirectStart.stepFlag false
      (DirectStart.BackendEvent.stdout DirectStart.startupMarker1) = true ∧
    DirectStart.stepFlag
      (DirectStart.stepFlag false
        (DirectStart.BackendEvent.stdout DirectStart.startupMarker1))
      (DirectStart.BackendEvent.stdout DirectStart.startupMarker1) = true ∧
    DirectStart.stepFlag false (DirectStart.BackendEvent.close 0) = false :=
  readiness_flag_lifecycle false DirectStart.startupMarker1 0 (by decide)

/-- C6: every GET request to one of the three health paths is answered
with status 200 and a JSON body carrying status "ok" and the timestamp,
whatever the server state and whatever the proxy would have done. -/
theorem health_routes_always_ok (st : DirectStart.ServerState)
    (now path : String) (proxy : DirectStart.ProxyOutcome)
    (hp : path = DirectStart.healthPath1 ∨ path = DirectStart.healthPath2 ∨
          path = DirectStart.healthPath3) :
    DirectStart.handleRequest st DirectStart.GETmethod path now proxy
      = some (DirectStart.healthResponse now) ∧
    (DirectStart.healthResponse now).statusCode = 200 ∧
    jsonGet (DirectStart.healthResponse now).body ("status") = some ("ok") ∧
    jsonGet (DirectStart.healthResponse now).body ("timestamp") = some now := by
  rcases hp with rfl | rfl | rfl
  · exact ⟨rfl, rfl, rfl, rfl⟩
  · exact ⟨rfl, rfl, rfl, rfl⟩
  · exact ⟨rfl, rfl, rfl, rfl⟩

/-- Closed instance of C6 at the `/healthz` path with the backend not
running and the proxy in a transport-failure state. -/
theorem health_routes_always_ok_witness :
    DirectStart.handleRequest ⟨false, 0⟩ DirectStart.GETmethod
      DirectStart.healthPath2 ("2025-01-01T00:00:00.000Z")
      (DirectStart.ProxyOutcome.transportError ("ECONNREFUSED"))
      = some (DirectStart.healthResponse ("2025-01-01T00:00:00.000Z")) ∧
    (DirectStart.healthResponse ("2025-01-01T00:00:00.000Z")).statusCode = 200 ∧
    jsonGet (DirectStart.healthResponse ("2025-01-01T00:00:00.000Z")).body
      ("status") = some ("ok") ∧
    jsonGet (DirectStart.healthResponse ("2025-01-01T00:00:00.000Z")).body
      ("timestamp") = some ("2025-01-01T00:00:00.000Z") :=
  health_routes_always_ok ⟨false, 0⟩ ("2025-01-01T00:00:00.000Z")
    ("/healthz") (DirectStart.ProxyOutcome.transportError ("ECONNREFUSED"))
    (Or.inr (Or.inl rfl))

/-- Auxiliary: a candidate observed to keep running ends the recursion
with exactly its own index. -/
lemma tryNextCommand_success_stop (outcomes : List DirectStart.AttemptOutcome)
    (n : Nat) (hn : n < outcomes.length)
    (hgn : outcomes[n] = DirectStart.AttemptOutcome.keepsRunning) :
    DirectStart.tryNextCommand outcomes n = [n] := by
  rw [DirectStart.tryNextCommand, dif_pos hn]
  split <;> simp_all

/-- Auxiliary: below the first success, every failed candidate extends
the attempt list by one index, so the attempts from `s` up to a success
at `n` are exactly the interval `[s, n]`. -/
lemma tryNextCommand_eq_range (outcomes : List DirectStart.AttemptOutcome)
    (n : Nat)
    (hrun : outcomes[n]? = some DirectStart.AttemptOutcome.keepsRunning)
    (hfail : ∀ o ∈ outcomes.take n, DirectStart.isFailedOutcome o = true) :
    ∀ s, s ≤ n → DirectStart.tryNextCommand outcomes s = List.range' s (n + 1 - s) := by
  obtain ⟨hn, hgn⟩ := List.getElem?_eq_some_iff.mp hrun
  have H : ∀ fuel s, s ≤ n → n - s ≤ fuel →
      DirectStart.tryNextCommand outcomes s = List.range' s (n + 1 - s) := by
    intro fuel
    induction fuel with
    | zero =>
      intro s hs hf
      have hsn : s = n := by omega
      rw [hsn, tryNextCommand_success_stop outcomes n hn hgn]
      have h1 : n + 1 - n = 1 := by omega
      rw [h1, List.range'_one]
    | succ k ih =>
      intro s hs hf
      by_cases hsn : s = n
      · rw [hsn, tryNextCommand_success_stop outcomes n hn hgn]
        have h1 : n + 1 - n = 1 := by omega
        rw [h1, List.range'_one]
      · have hslt : s < n := by omega
        have hsl : s < outcomes.length := by omega
        have hst : s < (outcomes.take n).length := by
          rw [List.length_take]; omega
        have hmem : outcomes[s] ∈ outcomes.take n := by
          have h1 := List.getElem_mem hst
          rwa [List.getElem_take] at h1
        have hfo := hfail _ hmem
        have hrest : DirectStart.tryNextCommand outcomes (s + 1)
            = List.range' (s + 1) (n - s) := by
          have := ih (s + 1) (by omega) (by omega)
          have h2 : n + 1 - (s + 1) = n - s := by omega
          rwa [h2] at this
        have hsplit : List.range' s (n + 1 - s) = s :: List.range' (s + 1) (n - s) := by
          have h3 : n + 1 - s = (n - s) + 1 := by omega
          rw [h3, List.range'_succ]
        rw [DirectStart.tryNextCommand, dif_pos hsl]
        split
        · rw [hrest, hsplit]
        · rename_i code heq
          rw [heq] at hfo
          have hcode : code ≠ 0 := by
            simpa [DirectStart.isFailedOutcome] using hfo
          rw [if_pos ⟨hcode, by omega⟩, hrest, hsplit]
        · rename_i heq
          rw [heq] at hfo
          simp [DirectStart.isFailedOutcome] at hfo
  intro s hs
  exact H (n - s) s hs (Nat.le_refl _)

/-- C2: when every candidate before the Nth fails (spawn error or
nonzero exit) and the Nth keeps running, the launcher attempts exactly
the candidates up to and including the Nth, in list order, and never
attempts any later candidate. -/
theorem launcher_tries_exact_prefix (outcomes : List DirectStart.AttemptOutcome)
    (n : Nat)
    (hrun : outcomes[n]? = some DirectStart.AttemptOutcome.keepsRunning)
    (hfail : ∀ o ∈ outcomes.take n, DirectStart.isFailedOutcome o = true) :
    DirectStart.tryNextCommand outcomes 0 = List.range (n + 1) := by
  have h := tryNextCommand_eq_range outcomes n hrun hfail 0 (Nat.zero_le n)
  rw [List.range_eq_range']
  simpa using h

/-- Closed instance of C2: first candidate fails to spawn, second exits
with code 1, third keeps running; exactly the first three indices are
attempted. -/
theorem launcher_tries_exact_prefix_witness :
    DirectStart.tryNextCommand
      [DirectStart.AttemptOutcome.spawnFailure,
       DirectStart.AttemptOutcome.exitsWith 1,
       DirectStart.AttemptOutcome.keepsRunning] 0 = List.range 3 :=
  launcher_tries_exact_prefix _ 2 rfl (by decide)

/-- C5 counterexample: a non-last candidate that exits with code 0 does
NOT advance the launcher to the next candidate — with candidate list
`[exit 0, would-keep-running]` only index 0 is attempted, refuting the
claim that an exit-0 candidate is treated like a failure (which would
attempt index 1). -/
theorem exit_zero_no_advance_counterexample :
    DirectStart.tryNextCommand
      [DirectStart.AttemptOutcome.exitsWith 0,
       DirectStart.AttemptOutcome.keepsRunning] 0 = [0] ∧
    ¬ (1 ∈ DirectStart.tryNextCommand
      [DirectStart.AttemptOutcome.exitsWith 0,
       DirectStart.AttemptOutcome.keepsRunning] 0) := by
  have h : DirectStart.tryNextCommand
      [DirectStart.AttemptOutcome.exitsWith 0,
       DirectStart.AttemptOutcome.keepsRunning] 0 = [0] := by
    rw [DirectStart.tryNextCommand]
    simp
  exact ⟨h, by rw [h]; decide⟩

/-- C5 amended: a candidate that exits with code 0 never causes
advancement — the launcher stops at it whatever its position in the
list; only spawn errors and nonzero exits (when not last) advance. -/
theorem exit_zero_stops_launcher (outcomes : List DirectStart.AttemptOutcome)
    (index : Nat)
    (h : outcomes[index]? = some (DirectStart.AttemptOutcome.exitsWith 0)) :
    DirectStart.tryNextCommand outcomes index = [index] := by
  obtain ⟨hl, hg⟩ := List.getElem?_eq_some_iff.mp h
  rw [DirectStart.tryNextCommand, dif_pos hl]
  split
  · simp_all
  · rename_i code heq
    rw [hg] at heq
    have hcode : code = 0 := by
      cases heq; rfl
    rw [if_neg]
    intro hcontra
    exact hcontra.1 hcode
  · simp_all

/-- Closed instance of the amended C5: an exit-0 first candidate stops
the launcher even though a further candidate exists. -/
theorem exit_zero_stops_launcher_witness :
    DirectStart.tryNextCommand
      [DirectStart.AttemptOutcome.exitsWith 0,
       DirectStart.AttemptOutcome.spawnFailure] 0 = [0] :=
  exit_zero_stops_launcher _ 0 rfl

/-- C7: with the virtual environment detected, the candidate list is
exactly the venv-specific commands followed by the generic fallbacks,
and every venv-specific command is spawned with the venv bin directory
prepended to the child's PATH and VIRTUAL_ENV set. -/
theorem venv_commands_first_and_path_precedence
    (parent : DirectStart.ChildEnv) (c : DirectStart.Command)
    (hc : c ∈ DirectStart.venvCommands) :
    DirectStart.startFastApiCommands true
      = DirectStart.venvCommands ++ DirectStart.fallbackCommands ∧
    strIncludes c.cmd DirectStart.venvBinMarker = true ∧
    (DirectStart.commandEnv c.cmd parent).PATH
      = DirectStart.venvBinColonStr ++ parent.PATH ∧
    (DirectStart.commandEnv c.cmd parent).VIRTUAL_ENV
      = some DirectStart.venvDir := by
  fin_cases hc
  · exact ⟨rfl, rfl, rfl, rfl⟩
  · exact ⟨rfl, rfl, rfl, rfl⟩

/-- Closed instance of C7 at the first venv command with an empty
parent PATH. -/
theorem venv_commands_first_and_path_precedence_witness :
    DirectStart.startFastApiCommands true
      = DirectStart.venvCommands ++ DirectStart.fallbackCommands ∧
    strIncludes (DirectStart.Command.mk ("/app/venv/bin/uvicorn")
        DirectStart.uvicornArgs).cmd DirectStart.venvBinMarker = true ∧
    (DirectStart.commandEnv (DirectStart.Command.mk ("/app/venv/bin/uvicorn")
        DirectStart.uvicornArgs).cmd (DirectStart.ChildEnv.mk ("") none)).PATH
      = DirectStart.venvBinColonStr ++ (DirectStart.ChildEnv.mk ("") none).PATH ∧
    (DirectStart.commandEnv (DirectStart.Command.mk ("/app/venv/bin/uvicorn")
        DirectStart.uvicornArgs).cmd
        (DirectStart.ChildEnv.mk ("") none)).VIRTUAL_ENV
      = some DirectStart.venvDir :=
  venv_commands_first_and_path_precedence (DirectStart.ChildEnv.mk ("") none)
    (DirectStart.Command.mk ("/app/venv/bin/uvicorn") DirectStart.uvicornArgs)
    (by decide)

/-- Auxiliary: a path under the `/api` mount prefix is none of the
statically routed paths. -/
lemma api_path_ne (path : String)
    (h : strStartsWith path DirectStart.apiRoute = true) :
    path ≠ DirectStart.healthPath1 ∧ path ≠ DirectStart.healthPath2 ∧
    path ≠ DirectStart.healthPath3 ∧ path ≠ DirectStart.rootPath := by
  refine ⟨?_, ?_, ?_, ?_⟩ <;> rintro rfl <;> revert h <;> decide

/-- C8: once every candidate index has been consumed the launcher makes
no further attempts, and this leaves the edge server fully functional:
health and root routes still answer 200, and every request under the
`/api` prefix whose forwarding fails receives the structured error
response — 503 while the readiness flag is false, 500 while true. -/
theorem launcher_exhaustion_non_fatal
    (outcomes : List DirectStart.AttemptOutcome) (index : Nat)
    (hidx : outcomes.length ≤ index)
    (st : DirectStart.ServerState) (method now path err : String)
    (hpath : strStartsWith path DirectStart.apiRoute = true) :
    DirectStart.tryNextCommand outcomes index = [] ∧
    DirectStart.handleRequest st DirectStart.GETmethod DirectStart.healthPath1
      now (DirectStart.ProxyOutcome.transportError err)
      = some (DirectStart.healthResponse now) ∧
    DirectStart.handleRequest st DirectStart.GETmethod DirectStart.rootPath
      now (DirectStart.ProxyOutcome.transportError err)
      = some DirectStart.rootResponse ∧
    DirectStart.handleRequest st method path now
      (DirectStart.ProxyOutcome.transportError err)
      = some (DirectStart.apiProxyOnError st.fastApiRunning err) ∧
    (DirectStart.apiProxyOnError st.fastApiRunning err).statusCode
      = (if st.fastApiRunning then 500 else 503) := by
  obtain ⟨h1, h2, h3, h4⟩ := api_path_ne path hpath
  obtain ⟨fr, li⟩ := st
  refine ⟨?_, rfl, rfl, ?_, ?_⟩
  · rw [DirectStart.tryNextCommand, dif_neg (by omega)]
  · simp [DirectStart.handleRequest, h1, h2, h3, h4, hpath]
  · cases fr <;> rfl

/-- Closed instance of C8: empty candidate list already exhausted,
flag false, a POST under `/api` failing at the transport level. -/
theorem launcher_exhaustion_non_fatal_witness :
    DirectStart.tryNextCommand [] 0 = [] ∧
    DirectStart.handleRequest (DirectStart.ServerState.mk false 0)
      DirectStart.GETmethod DirectStart.healthPath1 ("t")
      (DirectStart.ProxyOutcome.transportError ("refused"))
      = some (DirectStart.healthResponse ("t")) ∧
    DirectStart.handleRequest (DirectStart.ServerState.mk false 0)
      DirectStart.GETmethod DirectStart.rootPath ("t")
      (DirectStart.ProxyOutcome.transportError ("refused"))
      = some DirectStart.rootResponse ∧
    DirectStart.handleRequest (DirectStart.ServerState.mk false 0)
      ("POST") ("/api/process") ("t")
      (DirectStart.ProxyOutcome.transportError ("refused"))
      = some (DirectStart.apiProxyOnError
          (DirectStart.ServerState.mk false 0).fastApiRunning ("refused")) ∧
    (DirectStart.apiProxyOnError
        (DirectStart.ServerState.mk false 0).fastApiRunning ("refused")).statusCode
      = (if (DirectStart.ServerState.mk false 0).fastApiRunning then 500 else 503) :=
  launcher_exhaustion_non_fatal [] 0 (by decide)
    (DirectStart.ServerState.mk false 0) ("POST") ("t") ("/api/process")
    ("refused") (by decide)

/-- Closed instance of C1 at a concrete error message. -/
theorem proxy_error_handler_branches_witness :
    (DirectStart.apiProxyOnError false ("connect ECONNREFUSED")).statusCode = 503 ∧
    jsonGet (DirectStart.apiProxyOnError false ("connect ECONNREFUSED")).body
      ("status") = some ("initializing") ∧
    (DirectStart.apiProxyOnError true ("connect ECONNREFUSED")).statusCode = 500 ∧
    jsonGet (DirectStart.apiProxyOnError true ("connect ECONNREFUSED")).body
      ("status") = some ("error") ∧
    jsonGet (DirectStart.apiProxyOnError true ("connect ECONNREFUSED")).body
      ("message") = some ("connect ECONNREFUSED") :=
  proxy_error_handler_branches ("connect ECONNREFUSED")

/-- Auxiliary: an HTTP 200 outcome makes the prober exit 0 at once. -/
lemma makeRequest_success (attempts : Nat → Healthcheck.ProbeOutcome) (r : Nat)
    (h : attempts r = Healthcheck.ProbeOutcome.response 200) :
    Healthcheck.makeRequest attempts r = 0 := by
  unfold Healthcheck.makeRequest
  rw [h]
  simp

/-- Auxiliary: a failed attempt defers to the retry decision. -/
lemma makeRequest_fail_step (attempts : Nat → Healthcheck.ProbeOutcome) (r : Nat)
    (h : Healthcheck.isProbeFailure (attempts r) = true) :
    Healthcheck.makeRequest attempts r = Healthcheck.retryOrFail attempts r := by
  unfold Healthcheck.makeRequest
  cases ha : attempts r <;> simp_all [Healthcheck.isProbeFailure]

/-- Auxiliary: while attempts remain, the retry decision runs the next
attempt. -/
lemma retryOrFail_next (attempts : Nat → Healthcheck.ProbeOutcome) (r : Nat)
    (h : r < Healthcheck.MAX_RETRIES - 1) :
    Healthcheck.retryOrFail attempts r = Healthcheck.makeRequest attempts (r + 1) := by
  unfold Healthcheck.retryOrFail
  rw [if_pos h]

/-- Auxiliary: when every attempt up to MAX_RETRIES fails, the prober
exits 1, by downward induction on the remaining attempt budget. -/
lemma makeRequest_all_fail (attempts : Nat → Healthcheck.ProbeOutcome) :
    ∀ fuel r, Healthcheck.MAX_RETRIES - r ≤ fuel → r < Healthcheck.MAX_RETRIES →
    (∀ i, i < Healthcheck.MAX_RETRIES → Healthcheck.isProbeFailure (attempts i) = true) →
    Healthcheck.makeRequest attempts r = 1 := by
  intro fuel
  induction fuel with
  | zero => intro r h1 h2 _; omega
  | succ k ih =>
    intro r h1 h2 hfail
    rw [makeRequest_fail_step attempts r (hfail r h2)]
    unfold Healthcheck.retryOrFail
    by_cases hr : r < Healthcheck.MAX_RETRIES - 1
    · rw [if_pos hr]
      exact ih (r + 1) (by omega) (by omega) hfail
    · rw [if_neg hr]

/-- C3: the health prober exits 0 immediately on an HTTP 200 outcome;
a failed attempt (non-200 status, connection error, or timeout) with
attempts remaining behaves as a retry at the next attempt number; and
when all MAX_RETRIES attempts fail it exits 1 and never 0. -/
theorem prober_retry_and_exit_codes (attempts : Nat → Healthcheck.ProbeOutcome)
    (r : Nat) :
    (attempts r = Healthcheck.ProbeOutcome.response 200 →
      Healthcheck.makeRequest attempts r = 0) ∧
    (Healthcheck.isProbeFailure (attempts r) = true →
      r < Healthcheck.MAX_RETRIES - 1 →
      Healthcheck.makeRequest attempts r = Healthcheck.makeRequest attempts (r + 1)) ∧
    ((∀ i, i < Healthcheck.MAX_RETRIES →
        Healthcheck.isProbeFailure (attempts i) = true) →
      Healthcheck.makeRequest attempts 0 = 1 ∧
      Healthcheck.makeRequest attempts 0 ≠ 0) := by
  refine ⟨fun h => makeRequest_success attempts r h, fun hf hr => ?_, fun hall => ?_⟩
  · rw [makeRequest_fail_step attempts r hf, retryOrFail_next attempts r hr]
  · have h1 := makeRequest_all_fail attempts Healthcheck.MAX_RETRIES 0
      (by omega) (by decide) hall
    exact ⟨h1, by rw [h1]; omega⟩

/-- Closed instance of C3: a target refusing every connection makes the
prober exit 1 and never 0. -/
theorem prober_retry_and_exit_codes_witness :
    Healthcheck.makeRequest
      (fun _ => Healthcheck.ProbeOutcome.connFailure ("connect ECONNREFUSED")) 0 = 1 ∧
    Healthcheck.makeRequest
      (fun _ => Healthcheck.ProbeOutcome.connFailure ("connect ECONNREFUSED")) 0 ≠ 0 :=
  (prober_retry_and_exit_codes
      (fun _ => Healthcheck.ProbeOutcome.connFailure ("connect ECONNREFUSED")) 0).2.2
    (fun _ _ => rfl)

/-- Auxiliary: with no 'log' event ever delivered, the variant's flag
stays at its initial false value along any event trace. -/
lemma variant_flag_stays_false (trace : List VariantA.VariantEvent)
    (h : ∀ e ∈ trace, VariantA.isLogEvent e = false) :
    trace.foldl VariantA.variantStep false = false := by
  induction trace with
  | nil => rfl
  | cons e rest ih =>
    rw [List.foldl_cons]
    have hstep : VariantA.variantStep false e = false := by
      have he := h e (List.mem_cons_self e rest)
      cases e <;> simp_all [VariantA.variantStep, VariantA.isLogEvent]
    rw [hstep]
    exact ih (fun x hx => h x (List.mem_cons_of_mem e hx))

/-- C9: in the part_000 variant the readiness flag is never set to true
during any execution whose events exclude the custom 'log' event on
`process` (which Node.js never emits), so every proxy transport failure
in that variant answers 503 with status "initializing" — even after the
backend has fully started. -/
theorem variant_readiness_never_true (trace : List VariantA.VariantEvent)
    (err : String) (h : ∀ e ∈ trace, VariantA.isLogEvent e = false) :
    trace.foldl VariantA.variantStep false = false ∧
    (VariantA.variantOnError (trace.foldl VariantA.variantStep false) err).statusCode
      = 503 ∧
    jsonGet (VariantA.variantOnError
        (trace.foldl VariantA.variantStep false) err).body ("status")
      = some ("initializing") := by
  have hf := variant_flag_stays_false trace h
  refine ⟨hf, ?_, ?_⟩ <;> rw [hf] <;> rfl

/-- Closed instance of C9: a trace in which the backend script was
spawned and then exited (the events this variant can actually see). -/
theorem variant_readiness_never_true_witness :
    ([VariantA.VariantEvent.pythonClose 0].foldl VariantA.variantStep false
      = false) ∧
    (VariantA.variantOnError
        ([VariantA.VariantEvent.pythonClose 0].foldl VariantA.variantStep false)
        ("connect ECONNREFUSED")).statusCode = 503 ∧
    jsonGet (VariantA.variantOnError
        ([VariantA.VariantEvent.pythonClose 0].foldl VariantA.variantStep false)
        ("connect ECONNREFUSED")).body ("status") = some ("initializing") :=
  variant_readiness_never_true [VariantA.VariantEvent.pythonClose 0]
    ("connect ECONNREFUSED") (by decide)

/-- C10: the prober's target port is hardcoded to 3000 while the edge
server binds the PORT environment value (falling back to 3000), so in
any environment where PORT is set to a value other than 3000 the prober
probes a port the server is not bound to; with every attempt against
the unbound port failing at the connection level, it can only exit 1. -/
theorem prober_port_mismatch (p : Nat) (hp : p ≠ 3000)
    (attempts : Nat → Healthcheck.ProbeOutcome)
    (hconn : ∀ i, i < Healthcheck.MAX_RETRIES →
      ∃ m, attempts i = Healthcheck.ProbeOutcome.connFailure m) :
    ServerJs.PORT (some p) ≠ Healthcheck.PORT ∧
    Healthcheck.makeRequest attempts 0 = 1 ∧
    Healthcheck.makeRequest attempts 0 ≠ 0 := by
  have h1 : Healthcheck.makeRequest attempts 0 = 1 := by
    apply makeRequest_all_fail attempts Healthcheck.MAX_RETRIES 0 (by omega) (by decide)
    intro i hi
    obtain ⟨m, hm⟩ := hconn i hi
    rw [hm]
    rfl
  refine ⟨?_, h1, by rw [h1]; omega⟩
  simpa [ServerJs.PORT, Healthcheck.PORT] using hp

/-- Closed instance of C10 with PORT set to 8080. -/
theorem prober_port_mismatch_witness :
    ServerJs.PORT (some 8080) ≠ Healthcheck.PORT ∧
    Healthcheck.makeRequest
      (fun _ => Healthcheck.ProbeOutcome.connFailure ("connect EHOSTUNREACH")) 0 = 1 ∧
    Healthcheck.makeRequest
      (fun _ => Healthcheck.ProbeOutcome.connFailure ("connect EHOSTUNREACH")) 0 ≠ 0 :=
  prober_port_mismatch 8080 (by decide)
    (fun _ => Healthcheck.ProbeOutcome.connFailure ("connect EHOSTUNREACH"))
    (fun _ _ => ⟨_, rfl⟩)
